import Mathlib

/-!
Verification of the AI Spreadsheet Analyst glue layer (`app.py`).

The development shallowly embeds the request handlers of the Flask
application: the tabular data summarizer (`get_data_summary`), the session
registry (`chat_sessions`, a Python dict from session id to chat handle),
the init handler (`init_session`), the query handler (`query`) with its
response-part reassembly loop, and the health handler (`health`).

External effects (the Gemini API calls `model.start_chat()` and
`chat.send_message(...)`) are modelled as `Except`-valued oracles passed in
as parameters: `.error e` models the call raising an exception whose
message text is `e`.  Python string truthiness (`if s:`) is modelled as
`s ≠ ""`; absent attributes are modelled with `Option`.
-/

set_option autoImplicit false

namespace SpreadsheetAnalyst

/-- A chat handle returned by `model.start_chat()`.  Handles are opaque;
only their identity matters, so they are modelled by a tag. -/
structure Chat where
  id : Nat
deriving Repr, DecidableEq

/-- The `executable_code` field of a response part (`part.executable_code.code`). -/
structure ExecutableCode where
  code : String
deriving Repr, DecidableEq

/-- The `code_execution_result` field of a response part
(`part.code_execution_result.output`). -/
structure CodeExecutionResult where
  output : String
deriving Repr, DecidableEq

/-- One part of a Gemini response (`response.parts` element).  Each field is
`none` when the attribute is absent; a present-but-empty proto message is
Python-falsy, which for these single-content-field messages coincides with
its string content being empty. -/
structure Part where
  text : Option String
  executable_code : Option ExecutableCode
  code_execution_result : Option CodeExecutionResult
deriving Repr, DecidableEq

/-- The flat result record assembled by the query handler:
`result = {'text': '', 'code': '', 'output': ''}`. -/
structure QueryResult where
  text : String
  code : String
  output : String
deriving Repr, DecidableEq

/-- One iteration of the reassembly loop `for part in response.parts:` in the
query handler: nonempty text is appended, a truthy executable-code fragment
overwrites `code`, and a truthy execution result with nonempty output
overwrites `output`. -/
def processPart (r : QueryResult) (p : Part) : QueryResult :=
  let r1 := match p.text with
    | some t => if t ≠ "" then { r with text := r.text ++ t } else r
    | none => r
  let r2 := match p.executable_code with
    | some ec => if ec.code ≠ "" then { r1 with code := ec.code } else r1
    | none => r1
  match p.code_execution_result with
  | some cer => if cer.output ≠ "" then { r2 with output := cer.output } else r2
  | none => r2

/-- The whole reassembly loop of the query handler, starting from the empty
result record. -/
def processParts (parts : List Part) : QueryResult :=
  parts.foldl processPart ⟨"", "", ""⟩

/-- Spec-side reading of a part's text fragment (empty when absent). -/
def textFragment (p : Part) : String := p.text.getD ""

/-- Spec-side reading of a part's executable-code fragment (empty when absent). -/
def codeFragment (p : Part) : String := (p.executable_code.map ExecutableCode.code).getD ""

/-- Spec-side reading of a part's code-execution-result output (empty when absent). -/
def outputFragment (p : Part) : String := (p.code_execution_result.map CodeExecutionResult.output).getD ""

/-- Spec-side: the concatenation, in order, of a list of strings. -/
def concatAll : List String → String
  | [] => ""
  | s :: rest => s ++ concatAll rest

/-- Spec-side: the last non-empty string of a list, if any. -/
def lastNonempty : List String → Option String
  | [] => none
  | s :: rest =>
    match lastNonempty rest with
    | some t => some t
    | none => if s ≠ "" then some s else none

theorem processPart_eq (r : QueryResult) (p : Part) :
    processPart r p =
      { text := if textFragment p ≠ "" then r.text ++ textFragment p else r.text
        code := if codeFragment p ≠ "" then codeFragment p else r.code
        output := if outputFragment p ≠ "" then outputFragment p else r.output } := by
  obtain ⟨t?, ec?, cer?⟩ := p
  cases t? <;> cases ec? <;> cases cer? <;>
    simp [processPart, textFragment, codeFragment, outputFragment] <;>
    split_ifs <;> simp_all

theorem concatAll_filter_cons (s : String) (l : List String) (acc : String) :
    acc ++ concatAll ((s :: l).filter (fun x => x ≠ "")) =
      (if s ≠ "" then acc ++ s else acc) ++ concatAll (l.filter (fun x => x ≠ "")) := by
  by_cases h : s = "" <;> simp [h, concatAll, String.append_assoc]

theorem lastNonempty_cons_getD (s : String) (l : List String) (d : String) :
    (lastNonempty (s :: l)).getD d =
      (lastNonempty l).getD (if s ≠ "" then s else d) := by
  cases h : lastNonempty l <;> by_cases hs : s = "" <;> simp [lastNonempty, h, hs]

theorem processParts_go (parts : List Part) (r : QueryResult) :
    parts.foldl processPart r =
      { text := r.text ++ concatAll ((parts.map textFragment).filter (fun x => x ≠ ""))
        code := (lastNonempty (parts.map codeFragment)).getD r.code
        output := (lastNonempty (parts.map outputFragment)).getD r.output } := by
  induction parts generalizing r with
  | nil => simp [concatAll, lastNonempty]
  | cons p ps ih =>
    rw [List.foldl_cons, ih, processPart_eq]
    simp only [List.map_cons]
    rw [QueryResult.mk.injEq]
    refine ⟨?_, ?_, ?_⟩
    · exact (concatAll_filter_cons (textFragment p) (ps.map textFragment) r.text).symm
    · exact (lastNonempty_cons_getD (codeFragment p) (ps.map codeFragment) r.code).symm
    · exact (lastNonempty_cons_getD (outputFragment p) (ps.map outputFragment) r.output).symm

/-- C1: the query handler's reassembly yields text equal to the in-order
concatenation of all non-empty text fragments, code equal to the last
non-empty executable-code fragment (empty if none), and output equal to the
last non-empty code-execution-result output (empty if none):
last-write-wins on code and output, concatenation on text. -/
theorem query_reassembly (parts : List Part) :
    (processParts parts).text = concatAll ((parts.map textFragment).filter (fun x => x ≠ "")) ∧
    (processParts parts).code = (lastNonempty (parts.map codeFragment)).getD "" ∧
    (processParts parts).output = (lastNonempty (parts.map outputFragment)).getD "" := by
  unfold processParts
  rw [processParts_go]
  exact ⟨by simp, rfl, rfl⟩

/-- The session registry `chat_sessions`: a Python dict from session id to
chat handle, modelled as an association list with unique keys. -/
def Registry : Type := List (String × Chat)

instance : DecidableEq Registry := by
  unfold Registry
  infer_instance

/-- Length of the registry, `len(chat_sessions)`. -/
def Registry.size (r : Registry) : Nat := List.length r

/-- Dict lookup `chat_sessions[session_id]` / membership `session_id in chat_sessions`. -/
def Registry.find : Registry → String → Option Chat
  | [], _ => none
  | (k, v) :: rest, key => if k = key then some v else Registry.find rest key

/-- Dict assignment `chat_sessions[session_id] = chat`: replaces the value in
place if the key is present, appends a new entry otherwise. -/
def Registry.insert : Registry → String → Chat → Registry
  | [], key, chat => [(key, chat)]
  | (k, v) :: rest, key, chat =>
    if k = key then (key, chat) :: rest else (k, v) :: Registry.insert rest key chat

theorem Registry.find_insert_self (r : Registry) (key : String) (chat : Chat) :
    Registry.find (Registry.insert r key chat) key = some chat := by
  induction r with
  | nil => simp [Registry.insert, Registry.find]
  | cons kv rest ih =>
    obtain ⟨k, v⟩ := kv
    by_cases h : k = key <;> simp [Registry.insert, Registry.find, h, ih]

/-- Outcome of the query handler: `success` is the HTTP 200 JSON result,
`failure status msg` is `jsonify({'error': msg}), status`. -/
inductive QueryOutcome where
  | success (result : QueryResult)
  | failure (status : Nat) (error : String)
deriving Repr, DecidableEq

/-- The `/api/query` handler.  `send` models `chat.send_message` together
with the decoding of its response into parts: `.error e` is the call (or the
decode) raising an exception with message `e`.  The handler returns the
outcome, the registry after the call (the handler never mutates
`chat_sessions`), and the list of send-message calls it performed. -/
def query (send : Chat → String → Except String (List Part))
    (chat_sessions : Registry)
    (session_id? : Option String) (query? : Option String) :
    QueryOutcome × Registry × List (Chat × String) :=
  let session_id := session_id?.getD "default"
  let user_query := query?.getD ""
  if user_query = "" then
    (.failure 400 "No query provided", chat_sessions, [])
  else
    match Registry.find chat_sessions session_id with
    | none => (.failure 400 "Session not initialized. Please refresh the page.", chat_sessions, [])
    | some chat =>
      match send chat user_query with
      | .ok parts => (.success (processParts parts), chat_sessions, [(chat, user_query)])
      | .error e => (.failure 500 e, chat_sessions, [(chat, user_query)])

/-- C2: a query request whose query text is empty or missing is rejected with
HTTP 400 and an error message, and no send-message call is made to the
remote AI service. -/
theorem query_empty_rejected (send : Chat → String → Except String (List Part))
    (chat_sessions : Registry) (session_id? query? : Option String)
    (hq : query?.getD "" = "") :
    query send chat_sessions session_id? query? =
      (.failure 400 "No query provided", chat_sessions, []) := by
  simp [query, hq]

theorem query_empty_rejected_witness :
    (none : Option String).getD "" = "" ∧
      query (fun _ _ => .ok []) ([] : Registry) none none =
        (.failure 400 "No query provided", ([] : Registry), []) :=
  ⟨rfl, query_empty_rejected (fun _ _ => .ok []) [] none none rfl⟩

/-- C3: a query request with non-empty query text whose session id has no
registry entry is rejected with HTTP 400 and the not-initialized message,
and no send-message call is made to the remote AI service. -/
theorem query_uninitialized_rejected (send : Chat → String → Except String (List Part))
    (chat_sessions : Registry) (session_id? query? : Option String)
    (hq : query?.getD "" ≠ "")
    (hs : Registry.find chat_sessions (session_id?.getD "default") = none) :
    query send chat_sessions session_id? query? =
      (.failure 400 "Session not initialized. Please refresh the page.", chat_sessions, []) := by
  simp [query, hq, hs]

theorem query_uninitialized_rejected_witness :
    (some "anything" : Option String).getD "" ≠ "" ∧
      Registry.find ([] : Registry) ((some "missing-session" : Option String).getD "default") = none ∧
      query (fun _ _ => .ok []) ([] : Registry) (some "missing-session") (some "anything") =
        (.failure 400 "Session not initialized. Please refresh the page.", ([] : Registry), []) :=
  ⟨by decide, rfl,
    query_uninitialized_rejected (fun _ _ => .ok []) [] (some "missing-session")
      (some "anything") (by decide) rfl⟩

/-- C4: when the send-message call (or response decode) raises, the query
handler catches the exception and returns HTTP 500 carrying the exception
message; the registry is returned unchanged, the stored handle is still
found under the session id, and a subsequent query call with a succeeding
send reuses that same handle. -/
theorem query_send_failure (send send2 : Chat → String → Except String (List Part))
    (chat_sessions : Registry) (session_id? query? : Option String)
    (chat : Chat) (e : String) (q2 : String) (parts2 : List Part)
    (hs : Registry.find chat_sessions (session_id?.getD "default") = some chat)
    (hq : query?.getD "" ≠ "")
    (hsend : send chat (query?.getD "") = .error e)
    (hq2 : q2 ≠ "")
    (hsend2 : send2 chat q2 = .ok parts2) :
    query send chat_sessions session_id? query? =
        (.failure 500 e, chat_sessions, [(chat, query?.getD "")]) ∧
      Registry.find chat_sessions (session_id?.getD "default") = some chat ∧
      query send2 chat_sessions session_id? (some q2) =
        (.success (processParts parts2), chat_sessions, [(chat, q2)]) := by
  refine ⟨?_, hs, ?_⟩ <;> simp [query, hq, hs, hsend, hq2, hsend2]

theorem query_send_failure_witness :
    Registry.find [("s1", Chat.mk 7)] ((some "s1" : Option String).getD "default") =
        some (Chat.mk 7) ∧
      (some "q" : Option String).getD "" ≠ "" ∧
      query (fun _ _ => .error "boom") [("s1", Chat.mk 7)] (some "s1") (some "q") =
        (.failure 500 "boom", [("s1", Chat.mk 7)], [(Chat.mk 7, "q")]) ∧
      query (fun _ _ => .ok []) [("s1", Chat.mk 7)] (some "s1") (some "next") =
        (.success (processParts []), [("s1", Chat.mk 7)], [(Chat.mk 7, "next")]) := by
  have h := query_send_failure (fun _ _ => .error "boom") (fun _ _ => .ok [])
    [("s1", Chat.mk 7)] (some "s1") (some "q") (Chat.mk 7) "boom" "next" []
    rfl (by decide) rfl (by decide) rfl
  exact ⟨rfl, by decide, h.1, h.2.2⟩

/-- C9: the empty-query check comes before the session-existence check, so a
request that is both empty and addressed to an unknown session gets the
missing-query error, never the uninitialized-session error. -/
theorem query_empty_before_session (send : Chat → String → Except String (List Part))
    (chat_sessions : Registry) (session_id? query? : Option String)
    (hq : query?.getD "" = "")
    (hs : Registry.find chat_sessions (session_id?.getD "default") = none) :
    (query send chat_sessions session_id? query?).1 = .failure 400 "No query provided" := by
  simp [query, hq]

theorem query_empty_before_session_witness :
    (some "" : Option String).getD "" = "" ∧
      Registry.find ([] : Registry) ((some "ghost" : Option String).getD "default") = none ∧
      (query (fun _ _ => .ok []) ([] : Registry) (some "ghost") (some "")).1 =
        .failure 400 "No query provided" :=
  ⟨rfl, rfl, query_empty_before_session (fun _ _ => .ok []) [] (some "ghost") (some "") rfl rfl⟩

/-- A pandas column dtype, as far as the summarizer distinguishes them:
`select_dtypes(include=['number'])` keeps exactly the numeric dtypes. -/
inductive Dtype where
  | int64
  | float64
  | object
  | bool
  | datetime64
deriving Repr, DecidableEq

/-- Whether `select_dtypes(include=['number'])` keeps a column of this dtype. -/
def Dtype.isNumeric : Dtype → Bool
  | .int64 => true
  | .float64 => true
  | _ => false

/-- The dtype string as rendered by `df.dtypes.astype(str)`. -/
def Dtype.render : Dtype → String
  | .int64 => "int64"
  | .float64 => "float64"
  | .object => "object"
  | .bool => "bool"
  | .datetime64 => "datetime64[ns]"

/-- A named, typed column of the loaded table. -/
structure Column where
  name : String
  dtype : Dtype
deriving Repr, DecidableEq

/-- The in-memory table `df` loaded at startup: ordered named columns and a
list of rows, each row holding one rendered cell per column.  `len(df)` is
the number of rows, `len(df.columns)` the number of columns. -/
structure DataFrame where
  cols : List Column
  rows : List (List String)
deriving Repr, DecidableEq

/-- `df.columns.tolist()`. -/
def DataFrame.columnNames (df : DataFrame) : List String :=
  df.cols.map Column.name

/-- The names of the numeric columns, `df.select_dtypes(include=['number']).columns`. -/
def DataFrame.numericCols (df : DataFrame) : List String :=
  (df.cols.filter (fun c => c.dtype.isNumeric)).map Column.name

/-- The summary dict built by `get_data_summary` before `json.dumps`:
shape, column names, dtype strings, the first 10 rows, and — only when at
least one numeric column exists — the keys of the `describe()` statistics
dict (one per numeric column). -/
structure DataSummary where
  shape_rows : Nat
  shape_columns : Nat
  columns : List String
  dtypes : List (String × String)
  sample_rows : List (List String)
  statistics : Option (List String)
deriving Repr, DecidableEq

/-- The `get_data_summary` function of the source: the `statistics` key is
added only if `len(numeric_cols) > 0`, otherwise it is absent (`none`).
The function is total: a table with no numeric columns yields a summary
without raising. -/
def get_data_summary (df : DataFrame) : DataSummary :=
  { shape_rows := df.rows.length
    shape_columns := df.cols.length
    columns := df.columnNames
    dtypes := df.cols.map (fun c => (c.name, c.dtype.render))
    sample_rows := df.rows.take 10
    statistics := if df.numericCols.length > 0 then some df.numericCols else none }

/-- C5: for a non-empty table the summary's row and column counts equal the
table's exactly, and the number of sample rows is `min 10 rowCount`. -/
theorem data_summary_counts (df : DataFrame) (hne : 0 < df.rows.length) :
    (get_data_summary df).shape_rows = df.rows.length ∧
      (get_data_summary df).shape_columns = df.cols.length ∧
      (get_data_summary df).sample_rows.length = min 10 df.rows.length := by
  refine ⟨rfl, rfl, ?_⟩
  simp [get_data_summary, List.length_take]

theorem data_summary_counts_witness :
    0 < (DataFrame.mk [Column.mk "a" .object] [["x"], ["y"]]).rows.length ∧
      ((get_data_summary (DataFrame.mk [Column.mk "a" .object] [["x"], ["y"]])).shape_rows =
          (DataFrame.mk [Column.mk "a" .object] [["x"], ["y"]]).rows.length ∧
        (get_data_summary (DataFrame.mk [Column.mk "a" .object] [["x"], ["y"]])).shape_columns =
          (DataFrame.mk [Column.mk "a" .object] [["x"], ["y"]]).cols.length ∧
        (get_data_summary (DataFrame.mk [Column.mk "a" .object] [["x"], ["y"]])).sample_rows.length =
          min 10 (DataFrame.mk [Column.mk "a" .object] [["x"], ["y"]]).rows.length) :=
  ⟨by decide, data_summary_counts (DataFrame.mk [Column.mk "a" .object] [["x"], ["y"]]) (by decide)⟩

/-- C6: a table with zero numeric columns yields a summary whose statistics
key is absent (the `Option` is `none`, not `some` of something empty); the
summarizer is a total function, so it cannot raise. -/
theorem data_summary_no_numeric (df : DataFrame) (hz : df.numericCols = []) :
    (get_data_summary df).statistics = none := by
  simp [get_data_summary, hz]

theorem data_summary_no_numeric_witness :
    (DataFrame.mk [Column.mk "a" .object, Column.mk "b" .bool] [["x", "t"]]).numericCols = [] ∧
      (get_data_summary
          (DataFrame.mk [Column.mk "a" .object, Column.mk "b" .bool] [["x", "t"]])).statistics =
        none :=
  ⟨by decide,
    data_summary_no_numeric
      (DataFrame.mk [Column.mk "a" .object, Column.mk "b" .bool] [["x", "t"]]) (by decide)⟩

/-- The system-context message built in `init_session` around the rendered
data summary (the quote characters of the source template around df are
elided; the exact prose is immaterial to every property proved here). -/
def system_context (data_summary : String) : String :=
  "You are a data analyst with access to a pandas DataFrame called df.\n\n"
    ++ data_summary
    ++ "\n\nUse code execution to analyze the data. The DataFrame df is loaded and ready."

/-- The per-row payload of the `/api/init` success response. -/
structure InitResult where
  rows : Nat
  columns : Nat
  column_names : List String
deriving Repr, DecidableEq

/-- Outcome of the init handler: `success` is the HTTP 200 summary payload,
`failure status msg` is `jsonify({'error': msg, ...}), 500`. -/
inductive InitOutcome where
  | success (result : InitResult)
  | failure (status : Nat) (error : String)
deriving Repr, DecidableEq

/-- The `/api/init` handler.  `start_chat` models `model.start_chat()` and
`send` models `chat.send_message` on the system context, each raising
(`.error`) or succeeding; `dumps` models `json.dumps` on the summary dict.
The whole body runs inside one try block: any exception before the store
returns HTTP 500 and the registry is left untouched; only after the context
message is sent successfully is the handle stored
(`chat_sessions[session_id] = chat`, last-write-wins). -/
def init_session (start_chat : Except String Chat)
    (send : Chat → String → Except String (List Part))
    (dumps : DataSummary → String) (df : DataFrame)
    (chat_sessions : Registry) (session_id? : Option String) :
    InitOutcome × Registry :=
  let session_id := session_id?.getD "default"
  match start_chat with
  | .error e => (.failure 500 e, chat_sessions)
  | .ok chat =>
    let data_summary := dumps (get_data_summary df)
    match send chat (system_context data_summary) with
    | .error e => (.failure 500 e, chat_sessions)
    | .ok _ =>
      (.success ⟨df.rows.length, df.cols.length, df.columnNames⟩,
        Registry.insert chat_sessions session_id chat)

/-- C7: a successful init stores the freshly created handle under the
session id, last-write-wins: the handler succeeds even when the id was
already present, the registry now maps the id to the new handle, and a
subsequent query on that id sends its message through the new handle. -/
theorem init_session_overwrites (chat : Chat)
    (send qsend : Chat → String → Except String (List Part))
    (dumps : DataSummary → String) (df : DataFrame)
    (chat_sessions : Registry) (session_id? : Option String)
    (parts qparts : List Part) (q : String)
    (hsend : send chat (system_context (dumps (get_data_summary df))) = .ok parts)
    (hq : q ≠ "") (hqsend : qsend chat q = .ok qparts) :
    init_session (.ok chat) send dumps df chat_sessions session_id? =
        (.success ⟨df.rows.length, df.cols.length, df.columnNames⟩,
          Registry.insert chat_sessions (session_id?.getD "default") chat) ∧
      Registry.find (Registry.insert chat_sessions (session_id?.getD "default") chat)
          (session_id?.getD "default") = some chat ∧
      query qsend (Registry.insert chat_sessions (session_id?.getD "default") chat)
          session_id? (some q) =
        (.success (processParts qparts),
          Registry.insert chat_sessions (session_id?.getD "default") chat, [(chat, q)]) := by
  refine ⟨?_, Registry.find_insert_self .., ?_⟩
  · simp [init_session, hsend]
  · simp [query, hq, Registry.find_insert_self, hqsend]

theorem init_session_overwrites_witness :
    (fun _ _ => (.ok [] : Except String (List Part))) (Chat.mk 2)
        (system_context "{}") = .ok [] ∧
      "hello" ≠ "" ∧
      (fun _ _ => (.ok [] : Except String (List Part))) (Chat.mk 2) "hello" = .ok [] ∧
      init_session (.ok (Chat.mk 2)) (fun _ _ => .ok []) (fun _ => "{}")
          (DataFrame.mk [Column.mk "a" .int64] [["1"]]) [("s1", Chat.mk 1)] (some "s1") =
        (.success ⟨1, 1, ["a"]⟩, [("s1", Chat.mk 2)]) ∧
      Registry.find [("s1", Chat.mk 2)] "s1" = some (Chat.mk 2) ∧
      query (fun _ _ => .ok []) [("s1", Chat.mk 2)] (some "s1") (some "hello") =
        (.success (processParts []), [("s1", Chat.mk 2)], [(Chat.mk 2, "hello")]) := by
  have h := init_session_overwrites (Chat.mk 2) (fun _ _ => .ok []) (fun _ _ => .ok [])
    (fun _ => "{}") (DataFrame.mk [Column.mk "a" .int64] [["1"]]) [("s1", Chat.mk 1)]
    (some "s1") [] [] "hello" rfl (by decide) rfl
  exact ⟨rfl, by decide, rfl, h.1, h.2.1, h.2.2⟩

/-- C10: the init handler is atomic with respect to the registry: whenever
its outcome is a failure (an exception while creating the chat or while
sending the system context), the registry it returns is exactly the registry
it was given — no entry added, any prior handle under the id intact. -/
theorem init_session_atomic (start_chat : Except String Chat)
    (send : Chat → String → Except String (List Part))
    (dumps : DataSummary → String) (df : DataFrame)
    (chat_sessions : Registry) (session_id? : Option String)
    (status : Nat) (e : String)
    (hfail : (init_session start_chat send dumps df chat_sessions session_id?).1 =
      .failure status e) :
    (init_session start_chat send dumps df chat_sessions session_id?).2 = chat_sessions := by
  cases start_chat with
  | error e0 => simp [init_session]
  | ok chat =>
    cases hsend : send chat (system_context (dumps (get_data_summary df))) with
    | error e0 => simp [init_session, hsend]
    | ok parts =>
      exact absurd hfail (by simp [init_session, hsend])

theorem init_session_atomic_witness :
    (init_session (.error "quota exceeded") (fun _ _ => .ok []) (fun _ => "{}")
          (DataFrame.mk [Column.mk "a" .int64] [["1"]]) [("s1", Chat.mk 1)] (some "s1")).1 =
        .failure 500 "quota exceeded" ∧
      (init_session (.error "quota exceeded") (fun _ _ => .ok []) (fun _ => "{}")
          (DataFrame.mk [Column.mk "a" .int64] [["1"]]) [("s1", Chat.mk 1)] (some "s1")).2 =
        [("s1", Chat.mk 1)] :=
  ⟨rfl,
    init_session_atomic (.error "quota exceeded") (fun _ _ => .ok []) (fun _ => "{}")
      (DataFrame.mk [Column.mk "a" .int64] [["1"]]) [("s1", Chat.mk 1)] (some "s1")
      500 "quota exceeded" rfl⟩

/-- The nested `checks` dict of the health response. -/
structure HealthChecks where
  dataframe_loaded : Bool
  api_key_configured : Bool
  model_initialized : Bool
  active_sessions : Nat
deriving Repr, DecidableEq

/-- The `/api/health` response body. -/
structure HealthStatus where
  status : String
  checks : HealthChecks
  data_rows : Nat
  data_columns : Nat
deriving Repr, DecidableEq

/-- The `/api/health` handler.  `api_key` is `os.getenv('GEMINI_API_KEY')`
(`none` when unset; Python `bool` of the string is emptiness-testing); the
model object always exists once the process serves traffic, so
`model is not None` is true. -/
def health (df : DataFrame) (api_key : Option String) (chat_sessions : Registry) : HealthStatus :=
  { status := "healthy"
    checks :=
      { dataframe_loaded := decide (0 < df.rows.length)
        api_key_configured := decide (api_key.getD "" ≠ "")
        model_initialized := true
        active_sessions := chat_sessions.size }
    data_rows := df.rows.length
    data_columns := df.cols.length }

/-- C8: the health report's active_sessions field equals the number of
entries in the session registry at the time of the call. -/
theorem health_active_sessions (df : DataFrame) (api_key : Option String)
    (chat_sessions : Registry) :
    (health df api_key chat_sessions).checks.active_sessions = chat_sessions.size :=
  rfl

end SpreadsheetAnalyst
